import Mathlib

/-!
Shallow embedding of HomeControl's configuration manager
(`homecontrol/dependencies/config_manager.py`) and of the shutdown path of
the core instance (`homecontrol/core.py`), together with proofs checking the
natural-language specification against this embedding.

Modelling conventions:
* Python dictionaries are association lists that keep insertion order,
  matching CPython dict semantics (`setAssoc` overwrites in place or appends).
* A voluptuous schema (`vol.Schema`) is a function from a value to either the
  validated/coerced value or a validation error (`vol.Error`).
* `await`ed handler hooks are total functions returning their outcome; a
  raised exception is an `Except.error` result.
* Raising an exception from a method either leaves the object as it was at
  the raise point (methods return the mutated state alongside an optional
  error) or, for pure helpers, is an `Except.error` return.
-/

namespace HomeControl

/-- A YAML/Python configuration value: `None`, booleans, integers, strings,
lists and dictionaries.  Models the values a loaded `config.yaml` document
can hold. -/
inductive Value where
  | null : Value
  | bool (b : Bool) : Value
  | int (n : Int) : Value
  | str (s : String) : Value
  | list (elems : List Value) : Value
  | dict (entries : List (String × Value)) : Value
deriving Repr

mutual

/-- Structural equality of configuration values, mirroring Python `==` on
the corresponding `None`/`bool`/`int`/`str`/`list`/`dict` values. -/
def Value.beq : Value → Value → Bool
  | Value.null, Value.null => true
  | Value.bool a, Value.bool c => a == c
  | Value.int a, Value.int c => a == c
  | Value.str a, Value.str c => a == c
  | Value.list xs, Value.list ys => Value.beqL xs ys
  | Value.dict xs, Value.dict ys => Value.beqD xs ys
  | _, _ => false

/-- Equality of value lists, used by `Value.beq` on `list` values. -/
def Value.beqL : List Value → List Value → Bool
  | [], [] => true
  | x :: xs, y :: ys => Value.beq x y && Value.beqL xs ys
  | _, _ => false

/-- Equality of dictionary entry lists, used by `Value.beq` on `dict`
values. -/
def Value.beqD : List (String × Value) → List (String × Value) → Bool
  | [], [] => true
  | (kx, x) :: xs, (ky, y) :: ys => kx == ky && Value.beq x y && Value.beqD xs ys
  | _, _ => false

end

theorem Value.beq_iff : ∀ (a b : Value), (Value.beq a b = true ↔ a = b) := by
  apply Value.beq.induct
    (fun a b => Value.beq a b = true ↔ a = b)
    (fun xs ys => Value.beqD xs ys = true ↔ xs = ys)
    (fun xs ys => Value.beqL xs ys = true ↔ xs = ys)
  · simp [Value.beq]
  · intro a c; simp [Value.beq]
  · intro a c; simp [Value.beq]
  · intro a c; simp [Value.beq]
  · intro xs ys ih; simp [Value.beq, ih]
  · intro xs ys ih; simp [Value.beq, ih]
  · intro t x h1 h2 h3 h4 h5 h6
    cases t <;> cases x <;> simp_all [Value.beq]
  · simp [Value.beqL]
  · intro x xs y ys ih1 ih2; simp [Value.beqL, ih1, ih2]
  · intro t x h1 h2
    match t, x with
    | [], [] => exact (h1 rfl rfl).elim
    | [], y :: ys => simp [Value.beqL]
    | x0 :: xs, [] => simp [Value.beqL]
    | x0 :: xs, y :: ys => exact (h2 x0 xs y ys rfl rfl).elim
  · simp [Value.beqD]
  · intro kx x xs ky y ys ih1 ih2; simp [Value.beqD, ih1, ih2]
  · intro t x h1 h2
    match t, x with
    | [], [] => exact (h1 rfl rfl).elim
    | [], q :: ys => simp [Value.beqD]
    | p :: xs, [] => simp [Value.beqD]
    | p :: xs, q :: ys => exact (h2 p.1 p.2 xs q.1 q.2 ys rfl rfl).elim

instance : DecidableEq Value := fun a b => decidable_of_iff _ (Value.beq_iff a b)

/-- A configuration document: a Python `dict` from top-level domain names to
values, modelled as an insertion-ordered association list. -/
abbrev Cfg := List (String × Value)

/-- `d.get(k)` on a Python dict: the value at the first matching key. -/
def getAssoc {β : Type} (l : List (String × β)) (k : String) : Option β :=
  match l with
  | [] => none
  | (k', v) :: rest => if k' = k then some v else getAssoc rest k

/-- `d.get(k, default)` on a Python dict. -/
def getAssocD {β : Type} (l : List (String × β)) (k : String) (default : β) : β :=
  (getAssoc l k).getD default

/-- `d[k] = v` on a Python dict: overwrite in place if the key exists
(keeping its position), otherwise append at the end. -/
def setAssoc {β : Type} (l : List (String × β)) (k : String) (v : β) :
    List (String × β) :=
  match l with
  | [] => [(k, v)]
  | (k', v') :: rest =>
      if k' = k then (k, v) :: rest else (k', v') :: setAssoc rest k v

theorem getAssoc_setAssoc_self {β : Type} (l : List (String × β)) (k : String)
    (v : β) : getAssoc (setAssoc l k v) k = some v := by
  induction l with
  | nil => simp [setAssoc, getAssoc]
  | cons p rest ih =>
      obtain ⟨k', v'⟩ := p
      by_cases h : k' = k
      · simp [setAssoc, getAssoc, h]
      · simp [setAssoc, getAssoc, h, ih]

theorem getAssoc_setAssoc_other {β : Type} (l : List (String × β))
    (k k' : String) (v : β) (h : k' ≠ k) :
    getAssoc (setAssoc l k v) k' = getAssoc l k' := by
  induction l with
  | nil =>
      have h2 : ¬k = k' := fun hk => h hk.symm
      simp [setAssoc, getAssoc, h2]
  | cons p rest ih =>
      obtain ⟨k0, v0⟩ := p
      by_cases hk : k0 = k
      · subst hk
        have h2 : ¬k0 = k' := fun hk => h hk.symm
        simp [setAssoc, getAssoc, h2]
      · simp [setAssoc, getAssoc, hk, ih]

/-- `precedesB a b l` holds when some occurrence of `a` in `l` is strictly
before some occurrence of `b`. -/
def precedesB {α : Type} [DecidableEq α] (a b : α) : List α → Bool
  | [] => false
  | x :: xs => if x = a ∧ b ∈ xs then true else precedesB a b xs

theorem precedesB_append_left {α : Type} [DecidableEq α] (a b : α)
    (l1 l2 : List α) (h : precedesB a b l1 = true) :
    precedesB a b (l1 ++ l2) = true := by
  induction l1 with
  | nil => simp [precedesB] at h
  | cons x xs ih =>
      simp only [precedesB, List.cons_append, List.append_eq] at h ⊢
      by_cases hx : x = a ∧ b ∈ xs
      · simp [hx.1, hx.2]
      · simp only [hx, if_false] at h
        by_cases hx2 : x = a ∧ b ∈ xs ++ l2
        · simp [hx2]
        · rw [if_neg hx2]
          exact ih h

theorem precedesB_append_right {α : Type} [DecidableEq α] (a b : α)
    (l1 l2 : List α) (h : precedesB a b l2 = true) :
    precedesB a b (l1 ++ l2) = true := by
  induction l1 with
  | nil => simpa using h
  | cons x xs ih =>
      simp only [precedesB, List.cons_append, List.append_eq]
      by_cases hx : x = a ∧ b ∈ xs ++ l2
      · simp [hx]
      · rw [if_neg hx]
        exact ih

/-- A voluptuous schema (`vol.Schema`): calling it on a value either returns
the validated/coerced value or raises `vol.Error` (the error payload is not
inspected by the configuration manager, so it is modelled as `Unit`). -/
def Schema : Type := Value → Except Unit Value

/-- A configuration-domain handler object.  The configuration manager probes
it with `hasattr` for two optional methods, so each method is an `Option`:
`approve_configuration` returns the Python value the coroutine produced
(`none` models returning `None`), and `apply_new_configuration` either
returns normally or raises (`Except.error`). -/
structure Handler where
  approve_configuration : Option (Value → Option Bool)
  apply_new_configuration : Option (String → Value → Except Unit Unit)

/-- State of `ConfigManager` (`config_manager.py`, `__init__`): the cached
configuration document `cfg`, plus the registration tables.
`domain_reloadable` is a `defaultdict(bool)`, so lookups default to
`false`. -/
structure ConfigManager where
  cfg : Cfg
  registered_handlers : List (String × Handler)
  registered_domains : List String
  domain_schemas : List (String × Schema)
  domain_reloadable : List (String × Bool)

/-- `ConfigManager.get(key, default)`: getter for `self.cfg`.  The Python
default argument is `None`; callers model that by passing `none`. -/
def ConfigManager.get (self : ConfigManager) (key : String)
    (default : Option Value) : Option Value :=
  match getAssoc self.cfg key with
  | some v => some v
  | none => default

/-- `ConfigManager.__getitem__`: `self.cfg[key]`; `none` models the
`KeyError` raised on a missing key. -/
def ConfigManager.getitem (self : ConfigManager) (key : String) : Option Value :=
  getAssoc self.cfg key

/-- Errors raised by the configuration manager: `vol.Error` escaping schema
validation, `ConfigurationNotApproved`, and `ConfigDomainAlreadyRegistered`. -/
inductive ConfigError where
  | schemaError : ConfigError
  | configurationNotApproved (domain : String) : ConfigError
  | configDomainAlreadyRegistered (domain : String) : ConfigError
deriving DecidableEq, Repr

/-- Schema-validation stage of `ConfigManager.approve_domain_config`: if a
schema is registered for the domain the value is passed through it,
re-raising a `vol.Error` as `schemaError`; without a registered schema the
value passes through untouched. -/
def ConfigManager.validate_domain_config (self : ConfigManager) (domain : String)
    (config : Value) : Except ConfigError Value :=
  match getAssoc self.domain_schemas domain with
  | some schema =>
      match schema config with
      | Except.ok v => Except.ok v
      | Except.error _ => Except.error ConfigError.schemaError
  | none => Except.ok config

/-- `ConfigManager.approve_domain_config(domain, config, initial)`: the
validation stage above followed by the owner-approval stage — if a
registered handler has an `approve_configuration` method, a result equal to
`False` raises `ConfigurationNotApproved`, while a `None` result is
accepted.  The `initial` argument is unused by the source body and kept for
fidelity. -/
def ConfigManager.approve_domain_config (self : ConfigManager) (domain : String)
    (config : Value) (_initial : Bool) : Except ConfigError Value :=
  match self.validate_domain_config domain config with
  | Except.error e => Except.error e
  | Except.ok config =>
      match getAssoc self.registered_handlers domain with
      | some handler =>
          match handler.approve_configuration with
          | some approve =>
              match approve config with
              | some false =>
                  Except.error (ConfigError.configurationNotApproved domain)
              | _ => Except.ok config
          | none => Except.ok config
      | none => Except.ok config

/-- `ConfigManager.register_domain(domain, handler, schema, allow_reload,
default)`: registers a configuration domain.  Mirrors the source: `default`
falls back to `{}`; a domain found in `registered_domains` raises
`ConfigDomainAlreadyRegistered` (note the source never inserts into that
set); a truthy handler is recorded; the reloadable flag and optional schema
are recorded; finally `approve_domain_config` runs on
`self.cfg.get(domain, default)` and its outcome is returned.  The mutated
state is returned alongside the outcome because the Python object keeps its
mutations even when the approval raises. -/
def ConfigManager.register_domain (self : ConfigManager) (domain : String)
    (handler : Option Handler) (schema : Option Schema) (allow_reload : Bool)
    (default : Option Value) : ConfigManager × Except ConfigError Value :=
  let defaultv := match default with
    | none => Value.dict []
    | some d => d
  if domain ∈ self.registered_domains then
    (self, Except.error (ConfigError.configDomainAlreadyRegistered domain))
  else
    let self1 := match handler with
      | some h =>
          { self with registered_handlers := setAssoc self.registered_handlers domain h }
      | none => self
    let self2 :=
      { self1 with domain_reloadable := setAssoc self1.domain_reloadable domain allow_reload }
    let self3 := match schema with
      | some s =>
          { self2 with domain_schemas := setAssoc self2.domain_schemas domain s }
      | none => self2
    (self3,
     self3.approve_domain_config domain (getAssocD self3.cfg domain defaultv) true)

/-- Observable steps of one `ConfigManager.reload_config` run, in execution
order: the per-domain log lines of the source, the write to `self.cfg`, and
the call of a handler's `apply_new_configuration` method. -/
inductive ReloadEvent where
  | newConfigDetected (domain : String) : ReloadEvent
  | notReloadable (domain : String) : ReloadEvent
  | approveAttempted (domain : String) : ReloadEvent
  | approveFailed (domain : String) : ReloadEvent
  | cacheUpdated (domain : String) : ReloadEvent
  | applyHookInvoked (domain : String) : ReloadEvent
  | domainUpdated (domain : String) : ReloadEvent
deriving DecidableEq, Repr

/-- Result of a (possibly interrupted) `reload_config` run: the configuration
manager state at the end, the trace of observable steps, and `some ()` when
an exception raised by a handler's `apply_new_configuration` propagated out
of the loop. -/
abbrev ReloadResult : Type := ConfigManager × List ReloadEvent × Option Unit

/-- Prepends a block of observable steps to a reload result. -/
def prependEvents (evs : List ReloadEvent) (r : ReloadResult) : ReloadResult :=
  (r.1, evs ++ r.2.1, r.2.2)

/-- One iteration of the `for domain, domain_config in cfg.items():` loop of
`ConfigManager.reload_config`.  For a domain whose value equals
`self.cfg.get(domain, None)` nothing happens.  Otherwise: a non-reloadable
domain (`domain_reloadable` defaults to `False`) is logged and skipped; a
`vol.Error` or `ConfigurationNotApproved` from `approve_domain_config` is
caught and the domain skipped; on approval the value is written to
`self.cfg[domain]` and then, if the registered handler has an
`apply_new_configuration` method, that method is awaited — `some ()` in the
last component reports the exception it raised, if any.  The source looks
the handler up after the `self.cfg[domain]` write; the write does not touch
`registered_handlers`, so the embedding reads that table off `self`. -/
def ConfigManager.reload_domain_step (self : ConfigManager) (domain : String)
    (domain_config : Value) : ReloadResult :=
  if domain_config = getAssocD self.cfg domain Value.null then
    (self, [], none)
  else if getAssocD self.domain_reloadable domain false = false then
    (self,
     [ReloadEvent.newConfigDetected domain, ReloadEvent.notReloadable domain],
     none)
  else
    match self.approve_domain_config domain domain_config false with
    | Except.error _ =>
        (self,
         [ReloadEvent.newConfigDetected domain,
          ReloadEvent.approveAttempted domain,
          ReloadEvent.approveFailed domain],
         none)
    | Except.ok approved =>
        match getAssoc self.registered_handlers domain with
        | some handler =>
            match handler.apply_new_configuration with
            | some hook =>
                match hook domain approved with
                | Except.error _ =>
                    ({ self with cfg := setAssoc self.cfg domain approved },
                     [ReloadEvent.newConfigDetected domain,
                      ReloadEvent.approveAttempted domain,
                      ReloadEvent.cacheUpdated domain,
                      ReloadEvent.applyHookInvoked domain],
                     some ())
                | Except.ok _ =>
                    ({ self with cfg := setAssoc self.cfg domain approved },
                     [ReloadEvent.newConfigDetected domain,
                      ReloadEvent.approveAttempted domain,
                      ReloadEvent.cacheUpdated domain,
                      ReloadEvent.applyHookInvoked domain,
                      ReloadEvent.domainUpdated domain],
                     none)
            | none =>
                ({ self with cfg := setAssoc self.cfg domain approved },
                 [ReloadEvent.newConfigDetected domain,
                  ReloadEvent.approveAttempted domain,
                  ReloadEvent.cacheUpdated domain,
                  ReloadEvent.domainUpdated domain],
                 none)
        | none =>
            ({ self with cfg := setAssoc self.cfg domain approved },
             [ReloadEvent.newConfigDetected domain,
              ReloadEvent.approveAttempted domain,
              ReloadEvent.cacheUpdated domain,
              ReloadEvent.domainUpdated domain],
             none)

/-- The `for domain, domain_config in cfg.items():` loop of
`ConfigManager.reload_config` over the items of the re-read document: each
iteration is a `reload_domain_step`; an exception raised by a handler's
`apply_new_configuration` propagates out of the loop, keeping the mutations
made so far. -/
def ConfigManager.reload_config_loop (self : ConfigManager) :
    List (String × Value) → ReloadResult
  | [] => (self, [], none)
  | (domain, domain_config) :: rest =>
      let r := self.reload_domain_step domain domain_config
      match r.2.2 with
      | some u => (r.1, r.2.1, some u)
      | none => prependEvents r.2.1 (r.1.reload_config_loop rest)

/-- `ConfigManager.reload_config()`: reloads the configuration and updates
where it can.  The document re-read from `self.cfg_path` through
`YAMLLoader.load` is passed in as `newCfg`; the body then runs the per-domain
update loop over its items. -/
def ConfigManager.reload_config (self : ConfigManager) (newCfg : Cfg) :
    ReloadResult :=
  self.reload_config_loop newCfg

/-- The domain an observable reload step is about. -/
def ReloadEvent.dom : ReloadEvent → String
  | ReloadEvent.newConfigDetected d => d
  | ReloadEvent.notReloadable d => d
  | ReloadEvent.approveAttempted d => d
  | ReloadEvent.approveFailed d => d
  | ReloadEvent.cacheUpdated d => d
  | ReloadEvent.applyHookInvoked d => d
  | ReloadEvent.domainUpdated d => d

theorem reload_domain_step_event_dom (self : ConfigManager) (domain : String)
    (dc : Value) (e : ReloadEvent)
    (he : e ∈ (self.reload_domain_step domain dc).2.1) : e.dom = domain := by
  unfold ConfigManager.reload_domain_step at he
  split at he
  · simp at he
  · split at he
    · simp at he
      rcases he with rfl | rfl <;> rfl
    · split at he
      · simp at he
        rcases he with rfl | rfl | rfl <;> rfl
      · split at he
        · split at he
          · split at he
            · simp at he
              rcases he with rfl | rfl | rfl | rfl <;> rfl
            · simp at he
              rcases he with rfl | rfl | rfl | rfl | rfl <;> rfl
          · simp at he
            rcases he with rfl | rfl | rfl | rfl <;> rfl
        · simp at he
          rcases he with rfl | rfl | rfl | rfl <;> rfl

theorem reload_domain_step_tables (self : ConfigManager) (domain : String)
    (dc : Value) :
    (self.reload_domain_step domain dc).1.domain_reloadable = self.domain_reloadable
    ∧ (self.reload_domain_step domain dc).1.registered_handlers = self.registered_handlers
    ∧ (self.reload_domain_step domain dc).1.domain_schemas = self.domain_schemas
    ∧ (self.reload_domain_step domain dc).1.registered_domains = self.registered_domains := by
  unfold ConfigManager.reload_domain_step
  split
  · exact ⟨rfl, rfl, rfl, rfl⟩
  · split
    · exact ⟨rfl, rfl, rfl, rfl⟩
    · split
      · exact ⟨rfl, rfl, rfl, rfl⟩
      · split
        · split
          · split
            · exact ⟨rfl, rfl, rfl, rfl⟩
            · exact ⟨rfl, rfl, rfl, rfl⟩
          · exact ⟨rfl, rfl, rfl, rfl⟩
        · exact ⟨rfl, rfl, rfl, rfl⟩

theorem reload_domain_step_cfg_other (self : ConfigManager) (domain : String)
    (dc : Value) (d : String) (hd : domain ≠ d) :
    getAssoc (self.reload_domain_step domain dc).1.cfg d = getAssoc self.cfg d := by
  unfold ConfigManager.reload_domain_step
  split
  · rfl
  · split
    · rfl
    · split
      · rfl
      · split
        · split
          · split
            · exact getAssoc_setAssoc_other _ _ _ _ (Ne.symm hd)
            · exact getAssoc_setAssoc_other _ _ _ _ (Ne.symm hd)
          · exact getAssoc_setAssoc_other _ _ _ _ (Ne.symm hd)
        · exact getAssoc_setAssoc_other _ _ _ _ (Ne.symm hd)

theorem reload_domain_step_not_reloadable (self : ConfigManager) (domain : String)
    (dc : Value)
    (hnr : getAssocD self.domain_reloadable domain false = false) :
    (self.reload_domain_step domain dc).1 = self
    ∧ (self.reload_domain_step domain dc).2.2 = none
    ∧ ((self.reload_domain_step domain dc).2.1 = []
        ∨ (self.reload_domain_step domain dc).2.1
            = [ReloadEvent.newConfigDetected domain, ReloadEvent.notReloadable domain])
    ∧ (dc ≠ getAssocD self.cfg domain Value.null →
        (self.reload_domain_step domain dc).2.1
          = [ReloadEvent.newConfigDetected domain, ReloadEvent.notReloadable domain]) := by
  unfold ConfigManager.reload_domain_step
  by_cases hch : dc = getAssocD self.cfg domain Value.null
  · simp [hch]
  · simp [hch, hnr]

theorem reload_domain_step_cache_before_hook (self : ConfigManager)
    (domain : String) (dc : Value) (d : String)
    (h : ReloadEvent.applyHookInvoked d ∈ (self.reload_domain_step domain dc).2.1) :
    precedesB (ReloadEvent.cacheUpdated d) (ReloadEvent.applyHookInvoked d)
      (self.reload_domain_step domain dc).2.1 = true := by
  have hdom : d = domain := by
    have := reload_domain_step_event_dom self domain dc _ h
    simpa [ReloadEvent.dom] using this
  subst hdom
  unfold ConfigManager.reload_domain_step at h ⊢
  split at h
  · simp at h
  · split at h
    · simp at h
    · split at h
      · simp at h
      · split at h
        · split at h
          · split at h
            · simp_all [precedesB]
            · simp_all [precedesB]
          · simp_all [precedesB]
        · simp_all [precedesB]

theorem reload_loop_cfg_frame (self : ConfigManager) (l : List (String × Value))
    (d : String) (h : d ∉ l.map Prod.fst) :
    getAssoc (self.reload_config_loop l).1.cfg d = getAssoc self.cfg d := by
  induction l generalizing self with
  | nil => rfl
  | cons p rest ih =>
      obtain ⟨d0, v0⟩ := p
      have hd0 : d0 ≠ d := by
        intro hdd
        exact h (by simp [hdd])
      have hrest : d ∉ rest.map Prod.fst := by
        intro hr
        exact h (by simp [hr])
      rcases hstep : self.reload_domain_step d0 v0 with ⟨s1, tr1, e1⟩
      have hcfg : getAssoc s1.cfg d = getAssoc self.cfg d := by
        have hfr := reload_domain_step_cfg_other self d0 v0 d hd0
        rw [hstep] at hfr
        exact hfr
      cases e1 with
      | some u =>
          simp only [ConfigManager.reload_config_loop, hstep]
          exact hcfg
      | none =>
          simp only [ConfigManager.reload_config_loop, hstep, prependEvents]
          rw [ih s1 hrest, hcfg]

theorem reload_loop_non_reloadable_frame (self : ConfigManager)
    (l : List (String × Value)) (d : String)
    (hnr : getAssocD self.domain_reloadable d false = false) :
    getAssoc (self.reload_config_loop l).1.cfg d = getAssoc self.cfg d
    ∧ (∀ e ∈ (self.reload_config_loop l).2.1, e.dom = d →
        e = ReloadEvent.newConfigDetected d ∨ e = ReloadEvent.notReloadable d) := by
  induction l generalizing self with
  | nil => exact ⟨rfl, by intro e he; simp [ConfigManager.reload_config_loop] at he⟩
  | cons p rest ih =>
      obtain ⟨d0, v0⟩ := p
      rcases hstep : self.reload_domain_step d0 v0 with ⟨s1, tr1, e1⟩
      by_cases hd0 : d0 = d
      · subst hd0
        obtain ⟨hs1, he1, htr1, _⟩ := reload_domain_step_not_reloadable self d0 v0 hnr
        rw [hstep] at hs1 he1 htr1
        simp only at hs1 he1 htr1
        cases e1 with
        | some u => exact absurd he1 (by simp)
        | none =>
            have ihr := ih self hnr
            constructor
            · simp only [ConfigManager.reload_config_loop, hstep, prependEvents]
              rw [hs1]
              exact ihr.1
            · simp only [ConfigManager.reload_config_loop, hstep, prependEvents]
              rw [hs1]
              intro e he hedom
              rcases List.mem_append.mp he with h1 | h2
              · rcases htr1 with rfl | rfl
                · simp at h1
                · simp at h1
                  rcases h1 with rfl | rfl
                  · exact Or.inl rfl
                  · exact Or.inr rfl
              · exact ihr.2 e h2 hedom
      · have hcfg : getAssoc s1.cfg d = getAssoc self.cfg d := by
          have hfr := reload_domain_step_cfg_other self d0 v0 d hd0
          rw [hstep] at hfr
          exact hfr
        have hrel : s1.domain_reloadable = self.domain_reloadable := by
          have ht := (reload_domain_step_tables self d0 v0).1
          rw [hstep] at ht
          exact ht
        have htrdom : ∀ e ∈ tr1, ReloadEvent.dom e = d0 := by
          intro e he
          have hde := reload_domain_step_event_dom self d0 v0 e (by rw [hstep]; exact he)
          exact hde
        cases e1 with
        | some u =>
            simp only [ConfigManager.reload_config_loop, hstep]
            refine ⟨hcfg, ?_⟩
            intro e he hedom
            exact absurd ((htrdom e he).symm.trans hedom) hd0
        | none =>
            have ihr := ih s1 (by rw [hrel]; exact hnr)
            simp only [ConfigManager.reload_config_loop, hstep, prependEvents]
            constructor
            · rw [ihr.1, hcfg]
            · intro e he hedom
              rcases List.mem_append.mp he with h1 | h2
              · exact absurd ((htrdom e h1).symm.trans hedom) hd0
              · exact ihr.2 e h2 hedom

theorem reload_loop_logs_non_reloadable (self : ConfigManager)
    (l : List (String × Value)) (d : String) (v : Value)
    (hnr : getAssocD self.domain_reloadable d false = false)
    (hmem : (d, v) ∈ l) (hch : v ≠ getAssocD self.cfg d Value.null)
    (hok : (self.reload_config_loop l).2.2 = none) :
    ReloadEvent.notReloadable d ∈ (self.reload_config_loop l).2.1 := by
  induction l generalizing self with
  | nil => simp at hmem
  | cons p rest ih =>
      obtain ⟨d0, v0⟩ := p
      rcases hstep : self.reload_domain_step d0 v0 with ⟨s1, tr1, e1⟩
      rcases List.mem_cons.mp hmem with hhead | htail
      · obtain ⟨hd0, hv0⟩ : d = d0 ∧ v = v0 := by
          exact ⟨congrArg Prod.fst hhead, congrArg Prod.snd hhead⟩
        subst hd0
        subst hv0
        obtain ⟨hs1, he1, _, hlog⟩ := reload_domain_step_not_reloadable self d v hnr
        rw [hstep] at hs1 he1 hlog
        simp only at hs1 he1 hlog
        have htr1 := hlog hch
        cases e1 with
        | some u => exact absurd he1 (by simp)
        | none =>
            simp only [ConfigManager.reload_config_loop, hstep, prependEvents]
            subst htr1
            simp
      · by_cases hd0 : d0 = d
        · subst hd0
          obtain ⟨hs1, he1, _, _⟩ := reload_domain_step_not_reloadable self d0 v0 hnr
          rw [hstep] at hs1 he1
          simp only at hs1 he1
          cases e1 with
          | some u => exact absurd he1 (by simp)
          | none =>
              simp only [ConfigManager.reload_config_loop, hstep, prependEvents] at hok ⊢
              rw [hs1] at hok ⊢
              exact List.mem_append.mpr (Or.inr (ih self hnr htail hch hok))
        · have hcfg : getAssoc s1.cfg d = getAssoc self.cfg d := by
            have hfr := reload_domain_step_cfg_other self d0 v0 d hd0
            rw [hstep] at hfr
            exact hfr
          have hrel : s1.domain_reloadable = self.domain_reloadable := by
            have ht := (reload_domain_step_tables self d0 v0).1
            rw [hstep] at ht
            exact ht
          cases e1 with
          | some u =>
              simp only [ConfigManager.reload_config_loop, hstep] at hok
              exact absurd hok (by simp)
          | none =>
              simp only [ConfigManager.reload_config_loop, hstep, prependEvents] at hok ⊢
              have hch1 : v ≠ getAssocD s1.cfg d Value.null := by
                rw [getAssocD, hcfg]
                exact hch
              have hnr1 : getAssocD s1.domain_reloadable d false = false := by
                rw [hrel]
                exact hnr
              exact List.mem_append.mpr (Or.inr (ih s1 hnr1 htail hch1 hok))

theorem reload_loop_cache_before_hook (self : ConfigManager)
    (l : List (String × Value)) (d : String)
    (h : ReloadEvent.applyHookInvoked d ∈ (self.reload_config_loop l).2.1) :
    precedesB (ReloadEvent.cacheUpdated d) (ReloadEvent.applyHookInvoked d)
      (self.reload_config_loop l).2.1 = true := by
  induction l generalizing self with
  | nil => simp [ConfigManager.reload_config_loop] at h
  | cons p rest ih =>
      obtain ⟨d0, v0⟩ := p
      rcases hstep : self.reload_domain_step d0 v0 with ⟨s1, tr1, e1⟩
      cases e1 with
      | some u =>
          simp only [ConfigManager.reload_config_loop, hstep] at h ⊢
          have hpre := reload_domain_step_cache_before_hook self d0 v0 d
            (by rw [hstep]; exact h)
          rw [hstep] at hpre
          exact hpre
      | none =>
          simp only [ConfigManager.reload_config_loop, hstep, prependEvents] at h ⊢
          rcases List.mem_append.mp h with h1 | h2
          · have hpre := reload_domain_step_cache_before_hook self d0 v0 d
              (by rw [hstep]; exact h1)
            rw [hstep] at hpre
            exact precedesB_append_left _ _ _ _ hpre
          · exact precedesB_append_right _ _ _ _ (ih s1 h2)

/-- Observable effects of `Core.stop` (`core.py`), in execution order:
awaiting `item_manager.stop()`, awaiting `module_manager.stop()`, awaiting
`asyncio.wait(pending, timeout=…)` on the pending tasks, cancelling pending
tasks (`task.cancel()` — listed in the vocabulary so that its absence can be
stated, the source never performs it), and `loop.call_soon(loop.stop)`. -/
inductive StopEffect where
  | itemManagerStop : StopEffect
  | moduleManagerStop : StopEffect
  | waitPendingTasks (timeoutSeconds : Nat) : StopEffect
  | cancelPendingTasks : StopEffect
  | scheduleLoopStop : StopEffect
deriving DecidableEq, Repr

/-- `Core.stop()`: stops HomeControl.  Awaits the item manager's and the
module manager's stop, collects the still-pending tasks of the loop
(`pendingTasks` is how many there are besides the current one), awaits them
with `asyncio.wait(pending, loop=self.loop, timeout=1)` when there are any,
and finally schedules `self.loop.stop` with `call_soon`. -/
def Core.stop_trace (pendingTasks : Nat) : List StopEffect :=
  [StopEffect.itemManagerStop, StopEffect.moduleManagerStop]
    ++ (if 0 < pendingTasks then [StopEffect.waitPendingTasks 1] else [])
    ++ [StopEffect.scheduleLoopStop]

/-- Python-level errors surfacing in the shutdown path: `asyncio`'s
`InvalidStateError`, raised by `Future.set_result` on a future that is
already done. -/
inductive PyError where
  | invalidStateError : PyError
deriving DecidableEq, Repr

/-- An `asyncio.Future` holding the exit code: `none` while not done,
`some v` once a result was set. -/
structure Future where
  result : Option Int
deriving DecidableEq, Repr

/-- `asyncio.Future.set_result(v)`: marks the future done with result `v`;
on a future that is already done it raises `InvalidStateError` and leaves
the stored result unchanged. -/
def Future.set_result (fut : Future) (v : Int) : Future × Option PyError :=
  match fut.result with
  | some _ => (fut, some PyError.invalidStateError)
  | none => ({ result := some v }, none)

/-- Exit codes from `homecontrol/const.py` (not among the sources at hand);
their concrete values are irrelevant to the claims, they are modelled as two
distinct integers. -/
def EXIT_SHUTDOWN : Int := 0

/-- Exit code requesting a restart; see `EXIT_SHUTDOWN`. -/
def EXIT_RESTART : Int := 1

/-- The part of the `Core` state that the shutdown entry points touch:
`self.block_future`, awaited by `block_until_stop` for the exit code. -/
structure CoreState where
  block_future : Future
deriving DecidableEq, Repr

/-- A freshly constructed `Core`: `self.block_future = asyncio.Future()`,
not yet done. -/
def Core.initialState : CoreState :=
  { block_future := { result := none } }

/-- `Core.shutdown()`: shuts HomeControl down by calling
`self.block_future.set_result(EXIT_SHUTDOWN)`; the `InvalidStateError` that
`set_result` raises on a future that is already done propagates to the
caller. -/
def Core.shutdown (st : CoreState) : CoreState × Option PyError :=
  let r := st.block_future.set_result EXIT_SHUTDOWN
  ({ block_future := r.1 }, r.2)

/-- `Core.restart()`: same as `Core.shutdown` with `EXIT_RESTART`. -/
def Core.restart (st : CoreState) : CoreState × Option PyError :=
  let r := st.block_future.set_result EXIT_RESTART
  ({ block_future := r.1 }, r.2)

/-- `ConfigManager.__init__(cfg, cfg_path)`: empty registration tables and
the loaded configuration document (`cfg_path` is only used by
`reload_config` to re-read the file, which the embedding passes in
explicitly, so the path is not part of the state). -/
def ConfigManager.init (cfg : Cfg) : ConfigManager :=
  { cfg := cfg,
    registered_handlers := [],
    registered_domains := [],
    domain_schemas := [],
    domain_reloadable := [] }

/-- Modelled from the spec: the example schema of the scenario in section 8,
`vol.Schema` requiring `brightness: int 0..100`, as a concrete `Schema`
value to instantiate the theorems with (schemas are inputs supplied by the
caller of `register_domain`, not code of the configuration manager). -/
def brightnessSchema : Schema := fun v =>
  match v with
  | Value.dict [("brightness", Value.int n)] =>
      if 0 ≤ n ∧ n ≤ 100 then Except.ok (Value.dict [("brightness", Value.int n)])
      else Except.error ()
  | _ => Except.error ()

/-- A handler whose `apply_new_configuration` coroutine returns normally and
that has no `approve_configuration` method. -/
def applyOkHandler : Handler :=
  { approve_configuration := none,
    apply_new_configuration := some (fun _ _ => Except.ok ()) }

/-- A handler whose `apply_new_configuration` coroutine raises. -/
def applyRaisingHandler : Handler :=
  { approve_configuration := none,
    apply_new_configuration := some (fun _ _ => Except.error ()) }

/-- A handler whose `approve_configuration` coroutine returns `False`. -/
def denyHandler : Handler :=
  { approve_configuration := some (fun _ => some false),
    apply_new_configuration := none }

/-- A handler whose `approve_configuration` coroutine returns `None`. -/
def approveNoneHandler : Handler :=
  { approve_configuration := some (fun _ => none),
    apply_new_configuration := none }

/-- The document `{"lighting": {"brightness": 50}}`. -/
def lightingCfg50 : Cfg := [("lighting", Value.dict [("brightness", Value.int 50)])]

/-- The re-read document `{"lighting": {"brightness": 60}}`. -/
def lightingCfg60 : Cfg := [("lighting", Value.dict [("brightness", Value.int 60)])]

/-- A manager holding `lightingCfg50` whose domain `"lighting"` was
registered with `applyOkHandler` and `allow_reload=True`. -/
def cmReloadable : ConfigManager :=
  ((ConfigManager.init lightingCfg50).register_domain "lighting"
    (some applyOkHandler) none true none).1

/-- A manager holding `lightingCfg50` whose domain `"lighting"` was
registered with `allow_reload=False` and no handler. -/
def cmNotReloadable : ConfigManager :=
  ((ConfigManager.init lightingCfg50).register_domain "lighting"
    none none false none).1

/-- Claim C1 (status code_bug), evaluated at the failing input: calling
`register_domain` for `"lighting"` on a fresh manager and then a second time
for the same domain does not raise `ConfigDomainAlreadyRegistered`; the
second call returns an approved value again, because the first call left
`registered_domains` empty (the source checks the set but never inserts into
it). -/
theorem C1_register_domain_twice_returns_ok :
    (((ConfigManager.init []).register_domain "lighting" none none false none).1.register_domain
        "lighting" none none false none).2 = Except.ok (Value.dict [])
    ∧ ((ConfigManager.init []).register_domain "lighting" none none
        false none).1.registered_domains = [] :=
  ⟨rfl, rfl⟩

/-- Claim C7, counterexample to the claim as stated: with two pending
scheduler tasks, the effect trace of `Core.stop` contains no cancellation of
pending tasks at all — `asyncio.wait(pending, timeout=1)` only waits, and no
`task.cancel()` is ever issued. -/
theorem C7_counterexample :
    StopEffect.cancelPendingTasks ∉ Core.stop_trace 2 := by decide

/-- Claim C7 as amended: on shutdown, after the item manager and the module
manager are stopped, `Core.stop` waits up to a fixed one-second grace period
for the pending scheduler tasks and then schedules the event loop to stop;
it never cancels the pending tasks. -/
theorem C7_amended_stop_waits_one_second_without_cancelling (n : Nat)
    (h : 0 < n) :
    Core.stop_trace n
      = [StopEffect.itemManagerStop, StopEffect.moduleManagerStop,
         StopEffect.waitPendingTasks 1, StopEffect.scheduleLoopStop] := by
  simp [Core.stop_trace, h]

/-- Witness for `C7_amended_stop_waits_one_second_without_cancelling` at two
pending tasks. -/
theorem C7_amended_witness :
    Core.stop_trace 2
      = [StopEffect.itemManagerStop, StopEffect.moduleManagerStop,
         StopEffect.waitPendingTasks 1, StopEffect.scheduleLoopStop] :=
  C7_amended_stop_waits_one_second_without_cancelling 2 (by decide)

/-- Claim C8, counterexample to the claim as stated: invoking `shutdown` a
second time on a fresh core raises `InvalidStateError`, because
`block_future.set_result` is called on a future that is already done. -/
theorem C8_counterexample :
    (Core.shutdown (Core.shutdown Core.initialState).1).2
      = some PyError.invalidStateError := rfl

/-- Claim C8 as amended: the kernel's shutdown operation is not idempotent —
once the exit result is recorded, any further invocation raises
`InvalidStateError`; the failed call leaves the recorded exit result (and
the whole state) unchanged. -/
theorem C8_amended_second_shutdown_raises (st : CoreState) (v : Int)
    (h : st.block_future.result = some v) :
    Core.shutdown st = (st, some PyError.invalidStateError) := by
  simp [Core.shutdown, Future.set_result, h]

/-- Witness for `C8_amended_second_shutdown_raises` on the state left by a
first shutdown of a fresh core. -/
theorem C8_amended_witness :
    Core.shutdown (Core.shutdown Core.initialState).1
      = ((Core.shutdown Core.initialState).1, some PyError.invalidStateError) :=
  C8_amended_second_shutdown_raises (Core.shutdown Core.initialState).1
    EXIT_SHUTDOWN rfl

/-- Claim C9: `register_domain` never writes into the cached configuration
document — the state it returns has the same `cfg`, so `get` and
`__getitem__` still return the raw, unvalidated value; the schema-coerced
approved value exists only in the call's return value. -/
theorem C9_register_domain_never_writes_cfg (self : ConfigManager)
    (domain : String) (handler : Option Handler) (schema : Option Schema)
    (allow_reload : Bool) (default : Option Value) :
    (self.register_domain domain handler schema allow_reload default).1.cfg = self.cfg
    ∧ (∀ key dv, (self.register_domain domain handler schema allow_reload default).1.get key dv
        = self.get key dv)
    ∧ (∀ key, (self.register_domain domain handler schema allow_reload default).1.getitem key
        = self.getitem key) := by
  have hcfg : (self.register_domain domain handler schema allow_reload default).1.cfg = self.cfg := by
    unfold ConfigManager.register_domain
    by_cases hd : domain ∈ self.registered_domains
    · simp [hd]
    · rw [if_neg hd]
      cases handler <;> cases schema <;> simp
  exact ⟨hcfg, fun key dv => by simp [ConfigManager.get, hcfg],
         fun key => by simp [ConfigManager.getitem, hcfg]⟩

/-- Claim C2: registering a domain with a schema runs the raw value from the
document — or the supplied default when the domain is absent — through that
schema: a violating value makes `register_domain` surface `SchemaError` to
the caller (whatever handler was supplied, since validation precedes
approval), and a conforming value is returned validated/coerced (here stated
when no approval hook is involved). -/
theorem C2_register_domain_runs_schema (self : ConfigManager) (domain : String)
    (hnd : Option Handler) (s : Schema) (allow_reload : Bool)
    (default : Option Value) (hreg : domain ∉ self.registered_domains) :
    (∀ e, s (getAssocD self.cfg domain (default.getD (Value.dict []))) = Except.error e →
        (self.register_domain domain hnd (some s) allow_reload default).2
          = Except.error ConfigError.schemaError)
    ∧ (∀ v, s (getAssocD self.cfg domain (default.getD (Value.dict []))) = Except.ok v →
        hnd = none → getAssoc self.registered_handlers domain = none →
        (self.register_domain domain hnd (some s) allow_reload default).2
          = Except.ok v) := by
  constructor
  · intro e he
    cases default <;> cases hnd <;>
      simp_all [ConfigManager.register_domain, hreg,
        ConfigManager.approve_domain_config, ConfigManager.validate_domain_config,
        getAssoc_setAssoc_self]
  · intro v hv hn hlook
    subst hn
    cases default <;>
      simp_all [ConfigManager.register_domain, hreg,
        ConfigManager.approve_domain_config, ConfigManager.validate_domain_config,
        getAssoc_setAssoc_self]

/-- Witness for `C2_register_domain_runs_schema`: the spec's example
scenario — domain `"lighting"`, schema `brightness: int 0..100`, no handler;
raw `{"brightness": 150}` raises `SchemaError`, raw `{"brightness": 50}`
returns `{"brightness": 50}`. -/
theorem C2_witness :
    ((ConfigManager.init [("lighting", Value.dict [("brightness", Value.int 150)])]).register_domain
        "lighting" none (some brightnessSchema) false none).2
      = Except.error ConfigError.schemaError
    ∧ ((ConfigManager.init lightingCfg50).register_domain "lighting" none
        (some brightnessSchema) false none).2
      = Except.ok (Value.dict [("brightness", Value.int 50)]) :=
  ⟨(C2_register_domain_runs_schema _ "lighting" none brightnessSchema false none
      (by simp [ConfigManager.init])).1 () rfl,
   (C2_register_domain_runs_schema _ "lighting" none brightnessSchema false none
      (by simp [ConfigManager.init])).2
      (Value.dict [("brightness", Value.int 50)]) rfl rfl rfl⟩

/-- Claim C5: in the approve protocol, with a handler registered for the
domain whose validation stage yields `v`: an `approve_configuration` result
that is explicitly `False` aborts with `ConfigurationNotApproved`; any other
result (in particular `None`) is accepted and the validated value is
returned, as it also is when the handler implements no approval hook. -/
theorem C5_approval_false_aborts_none_accepted (self : ConfigManager)
    (domain : String) (raw v : Value) (handler : Handler) (b : Bool)
    (hh : getAssoc self.registered_handlers domain = some handler)
    (hval : self.validate_domain_config domain raw = Except.ok v) :
    (∀ approve, handler.approve_configuration = some approve →
        approve v = some false →
        self.approve_domain_config domain raw b
          = Except.error (ConfigError.configurationNotApproved domain))
    ∧ (∀ approve, handler.approve_configuration = some approve →
        approve v ≠ some false →
        self.approve_domain_config domain raw b = Except.ok v)
    ∧ (handler.approve_configuration = none →
        self.approve_domain_config domain raw b = Except.ok v) := by
  refine ⟨?_, ?_, ?_⟩
  · intro approve ha hfalse
    simp [ConfigManager.approve_domain_config, hval, hh, ha, hfalse]
  · intro approve ha hnotfalse
    rcases hav : approve v with _ | bv
    · simp [ConfigManager.approve_domain_config, hval, hh, ha, hav]
    · cases bv
      · exact absurd hav hnotfalse
      · simp [ConfigManager.approve_domain_config, hval, hh, ha, hav]
  · intro ha
    simp [ConfigManager.approve_domain_config, hval, hh, ha]

/-- A manager whose domain `"lighting"` has a handler answering `False` to
approval requests. -/
def cmDeny : ConfigManager :=
  { cfg := lightingCfg50,
    registered_handlers := [("lighting", denyHandler)],
    registered_domains := [],
    domain_schemas := [],
    domain_reloadable := [] }

/-- A manager whose domain `"lighting"` has a handler answering `None` to
approval requests. -/
def cmApproveNone : ConfigManager :=
  { cfg := lightingCfg50,
    registered_handlers := [("lighting", approveNoneHandler)],
    registered_domains := [],
    domain_schemas := [],
    domain_reloadable := [] }

/-- Witness for `C5_approval_false_aborts_none_accepted`: a `False` answer
aborts with `ConfigurationNotApproved`, a `None` answer lets the value
through. -/
theorem C5_witness :
    cmDeny.approve_domain_config "lighting" (Value.dict [("brightness", Value.int 50)]) true
      = Except.error (ConfigError.configurationNotApproved "lighting")
    ∧ cmApproveNone.approve_domain_config "lighting" (Value.dict [("brightness", Value.int 50)]) true
      = Except.ok (Value.dict [("brightness", Value.int 50)]) :=
  ⟨(C5_approval_false_aborts_none_accepted cmDeny "lighting" _ _ denyHandler true
      rfl rfl).1 _ rfl rfl,
   (C5_approval_false_aborts_none_accepted cmApproveNone "lighting" _ _ approveNoneHandler true
      rfl rfl).2.1 _ rfl (by simp [approveNoneHandler])⟩

/-- Claim C3, counterexample to the claim as stated: reloading a changed,
reloadable domain whose handler implements `apply_new_configuration` emits
the cache update strictly before the hook invocation — the source assigns
`self.cfg[domain] = domain_config` first and only then awaits the hook — so
the hook is not invoked before the cached value is updated. -/
theorem C3_counterexample :
    (cmReloadable.reload_config lightingCfg60).2.1
      = [ReloadEvent.newConfigDetected "lighting",
         ReloadEvent.approveAttempted "lighting",
         ReloadEvent.cacheUpdated "lighting",
         ReloadEvent.applyHookInvoked "lighting",
         ReloadEvent.domainUpdated "lighting"]
    ∧ precedesB (ReloadEvent.applyHookInvoked "lighting")
        (ReloadEvent.cacheUpdated "lighting")
        (cmReloadable.reload_config lightingCfg60).2.1 = false :=
  ⟨rfl, rfl⟩

/-- Claim C3 as amended: during `reload_config`, for every domain whose new
value passes the approve protocol, the handler's `apply_new_configuration`
hook (if implemented) is invoked after — not before — the cached
configuration value for that domain is updated. -/
theorem C3_amended_hook_invoked_after_cache_update (self : ConfigManager)
    (newCfg : Cfg) (d : String)
    (h : ReloadEvent.applyHookInvoked d ∈ (self.reload_config newCfg).2.1) :
    precedesB (ReloadEvent.cacheUpdated d) (ReloadEvent.applyHookInvoked d)
      (self.reload_config newCfg).2.1 = true :=
  reload_loop_cache_before_hook self newCfg d h

/-- Witness for `C3_amended_hook_invoked_after_cache_update` on the
reloadable `"lighting"` domain. -/
theorem C3_amended_witness :
    ReloadEvent.applyHookInvoked "lighting" ∈ (cmReloadable.reload_config lightingCfg60).2.1
    ∧ precedesB (ReloadEvent.cacheUpdated "lighting")
        (ReloadEvent.applyHookInvoked "lighting")
        (cmReloadable.reload_config lightingCfg60).2.1 = true :=
  ⟨by decide,
   C3_amended_hook_invoked_after_cache_update cmReloadable lightingCfg60 "lighting" (by decide)⟩

/-- Claim C4: during `reload_config`, a domain not registered with
`allow_reload=True` (including never-registered domains, as
`domain_reloadable` defaults to `False`) keeps its cached value unchanged,
the approve protocol is never attempted for it and no handler hook runs for
it; when its raw value in the re-read document differs from the cached value
(and no other domain's hook aborts the run) the change is logged as not
reloadable and skipped. -/
theorem C4_non_reloadable_change_logged_and_skipped (self : ConfigManager)
    (newCfg : Cfg) (d : String)
    (hnr : getAssocD self.domain_reloadable d false = false) :
    getAssoc (self.reload_config newCfg).1.cfg d = getAssoc self.cfg d
    ∧ ReloadEvent.approveAttempted d ∉ (self.reload_config newCfg).2.1
    ∧ ReloadEvent.cacheUpdated d ∉ (self.reload_config newCfg).2.1
    ∧ ReloadEvent.applyHookInvoked d ∉ (self.reload_config newCfg).2.1
    ∧ (∀ v, (d, v) ∈ newCfg → v ≠ getAssocD self.cfg d Value.null →
        (self.reload_config newCfg).2.2 = none →
        ReloadEvent.notReloadable d ∈ (self.reload_config newCfg).2.1) := by
  simp only [ConfigManager.reload_config]
  have hmain := reload_loop_non_reloadable_frame self newCfg d hnr
  refine ⟨hmain.1, ?_, ?_, ?_, ?_⟩
  · intro hmem
    rcases hmain.2 _ hmem rfl with h | h <;> exact absurd h (by simp)
  · intro hmem
    rcases hmain.2 _ hmem rfl with h | h <;> exact absurd h (by simp)
  · intro hmem
    rcases hmain.2 _ hmem rfl with h | h <;> exact absurd h (by simp)
  · exact fun v hmem hch hok =>
      reload_loop_logs_non_reloadable self newCfg d v hnr hmem hch hok

/-- Witness for `C4_non_reloadable_change_logged_and_skipped`: the spec's
example scenario — `"lighting"` registered with `allow_reload=False`, the
document changes its value, the cached value is unchanged and the domain is
logged as not reloadable. -/
theorem C4_witness :
    getAssoc (cmNotReloadable.reload_config lightingCfg60).1.cfg "lighting"
      = getAssoc cmNotReloadable.cfg "lighting"
    ∧ ReloadEvent.notReloadable "lighting"
        ∈ (cmNotReloadable.reload_config lightingCfg60).2.1 :=
  ⟨(C4_non_reloadable_change_logged_and_skipped cmNotReloadable lightingCfg60
      "lighting" rfl).1,
   (C4_non_reloadable_change_logged_and_skipped cmNotReloadable lightingCfg60
      "lighting" rfl).2.2.2.2
     (Value.dict [("brightness", Value.int 60)]) (by decide) (by decide) rfl⟩

/-- Claim C6: within one `reload_config` run, a changed, reloadable domain
whose new value fails validation or is disapproved contributes only its log
events — the loop continues over the remaining domains from an unchanged
state, so no other domain is blocked — and (as long as the domain does not
recur in the document) its cached value is left unchanged by the whole
run. -/
theorem C6_failed_domain_does_not_block_others (self : ConfigManager)
    (d : String) (v : Value) (rest : List (String × Value)) (e : ConfigError)
    (hch : v ≠ getAssocD self.cfg d Value.null)
    (hrl : getAssocD self.domain_reloadable d false = true)
    (happ : self.approve_domain_config d v false = Except.error e) :
    self.reload_config ((d, v) :: rest)
      = prependEvents
          [ReloadEvent.newConfigDetected d, ReloadEvent.approveAttempted d,
           ReloadEvent.approveFailed d]
          (self.reload_config rest)
    ∧ (d ∉ rest.map Prod.fst →
        getAssoc (self.reload_config ((d, v) :: rest)).1.cfg d
          = getAssoc self.cfg d) := by
  have hstep : self.reload_domain_step d v
      = (self,
         [ReloadEvent.newConfigDetected d, ReloadEvent.approveAttempted d,
          ReloadEvent.approveFailed d],
         none) := by
    unfold ConfigManager.reload_domain_step
    rw [if_neg hch, if_neg (by simp [hrl]), happ]
  have hmaineq : self.reload_config ((d, v) :: rest)
      = prependEvents
          [ReloadEvent.newConfigDetected d, ReloadEvent.approveAttempted d,
           ReloadEvent.approveFailed d]
          (self.reload_config rest) := by
    simp only [ConfigManager.reload_config, ConfigManager.reload_config_loop, hstep]
  refine ⟨hmaineq, ?_⟩
  intro hd
  rw [hmaineq]
  simp only [prependEvents, ConfigManager.reload_config]
  exact reload_loop_cfg_frame self rest d hd

/-- A manager with two reloadable domains, `"alpha"` carrying the
`brightness` schema and `"beta"` schemaless. -/
def cmTwoDomains : ConfigManager :=
  { cfg := [("alpha", Value.dict [("brightness", Value.int 50)]), ("beta", Value.bool false)],
    registered_handlers := [],
    registered_domains := [],
    domain_schemas := [("alpha", brightnessSchema)],
    domain_reloadable := [("alpha", true), ("beta", true)] }

/-- Witness for `C6_failed_domain_does_not_block_others`: `"alpha"` fails
schema validation on reload while `"beta"` is still processed, and the
cached `"alpha"` value survives the whole run. -/
theorem C6_witness :
    cmTwoDomains.reload_config
        [("alpha", Value.dict [("brightness", Value.int 150)]), ("beta", Value.bool true)]
      = prependEvents
          [ReloadEvent.newConfigDetected "alpha", ReloadEvent.approveAttempted "alpha",
           ReloadEvent.approveFailed "alpha"]
          (cmTwoDomains.reload_config [("beta", Value.bool true)])
    ∧ getAssoc (cmTwoDomains.reload_config
          [("alpha", Value.dict [("brightness", Value.int 150)]),
           ("beta", Value.bool true)]).1.cfg "alpha"
        = getAssoc cmTwoDomains.cfg "alpha" :=
  ⟨(C6_failed_domain_does_not_block_others cmTwoDomains "alpha"
      (Value.dict [("brightness", Value.int 150)]) [("beta", Value.bool true)]
      ConfigError.schemaError (by decide) rfl rfl).1,
   (C6_failed_domain_does_not_block_others cmTwoDomains "alpha"
      (Value.dict [("brightness", Value.int 150)]) [("beta", Value.bool true)]
      ConfigError.schemaError (by decide) rfl rfl).2 (by decide)⟩

/-- Claim C10: if a domain handler's `apply_new_configuration` hook raises
during `reload_config`, the exception propagates out of the loop, the
domains after it in the iteration are not processed at all, and the failing
domain's cached value has already been updated to the newly approved value
before the hook ran. -/
theorem C10_hook_exception_aborts_reload (self : ConfigManager) (d : String)
    (v approved : Value) (rest : List (String × Value)) (handler : Handler)
    (hook : String → Value → Except Unit Unit)
    (hch : v ≠ getAssocD self.cfg d Value.null)
    (hrl : getAssocD self.domain_reloadable d false = true)
    (happ : self.approve_domain_config d v false = Except.ok approved)
    (hh : getAssoc self.registered_handlers d = some handler)
    (hhook : handler.apply_new_configuration = some hook)
    (hraise : hook d approved = Except.error ()) :
    self.reload_config ((d, v) :: rest)
      = ({ self with cfg := setAssoc self.cfg d approved },
         [ReloadEvent.newConfigDetected d, ReloadEvent.approveAttempted d,
          ReloadEvent.cacheUpdated d, ReloadEvent.applyHookInvoked d],
         some ()) := by
  have hstep : self.reload_domain_step d v
      = ({ self with cfg := setAssoc self.cfg d approved },
         [ReloadEvent.newConfigDetected d, ReloadEvent.approveAttempted d,
          ReloadEvent.cacheUpdated d, ReloadEvent.applyHookInvoked d],
         some ()) := by
    unfold ConfigManager.reload_domain_step
    rw [if_neg hch, if_neg (by simp [hrl]), happ, hh]
    simp only [hhook, hraise]
  simp only [ConfigManager.reload_config, ConfigManager.reload_config_loop, hstep]

/-- A manager whose reloadable `"lighting"` domain has a handler whose
`apply_new_configuration` raises. -/
def cmRaising : ConfigManager :=
  { cfg := lightingCfg50,
    registered_handlers := [("lighting", applyRaisingHandler)],
    registered_domains := [],
    domain_schemas := [],
    domain_reloadable := [("lighting", true)] }

/-- Witness for `C10_hook_exception_aborts_reload`: the raising hook ends
the reload after `"lighting"` was written, leaving `"other"` unprocessed. -/
theorem C10_witness :
    cmRaising.reload_config
        [("lighting", Value.dict [("brightness", Value.int 60)]), ("other", Value.bool true)]
      = ({ cmRaising with
            cfg := setAssoc cmRaising.cfg "lighting" (Value.dict [("brightness", Value.int 60)]) },
         [ReloadEvent.newConfigDetected "lighting", ReloadEvent.approveAttempted "lighting",
          ReloadEvent.cacheUpdated "lighting", ReloadEvent.applyHookInvoked "lighting"],
         some ()) :=
  C10_hook_exception_aborts_reload cmRaising "lighting"
    (Value.dict [("brightness", Value.int 60)]) (Value.dict [("brightness", Value.int 60)])
    [("other", Value.bool true)] applyRaisingHandler (fun _ _ => Except.error ())
    (by decide) rfl rfl rfl rfl rfl

end HomeControl





